import Mathlib

/-!
Shallow embedding of pymzn's solver-output parsing core
(`src/pymzn/mzn/output.py`): the `Status` enumeration, the `Solutions`
lazy stream, and the `SolutionParser` line splitter / orchestrator.

External collaborators that are not part of the embedded file are
parameters: the solver-line adapter (`solver_parser.parse_out`) is a
function `String → String`, and the dzn value parser (`dzn2dict`,
whose source is not in this repository slice) is a function
`String → Except String α` modelled from the spec.
-/

/-- Status, an IntEnum in the source: COMPLETE = 0, INCOMPLETE = 1,
UNKNOWN = 2, UNSATISFIABLE = 3, UNBOUNDED = 4, UNSATorUNBOUNDED = 5,
ERROR = 6. -/
inductive Status where
  | COMPLETE
  | INCOMPLETE
  | UNKNOWN
  | UNSATISFIABLE
  | UNBOUNDED
  | UNSATorUNBOUNDED
  | ERROR
deriving DecidableEq

/-- Numeric value of the IntEnum member (used by `status < 2` in the
source's `__repr__` and `__str__`). -/
def Status.toNat : Status → Nat
  | .COMPLETE => 0
  | .INCOMPLETE => 1
  | .UNKNOWN => 2
  | .UNSATISFIABLE => 3
  | .UNBOUNDED => 4
  | .UNSATorUNBOUNDED => 5
  | .ERROR => 6

/-- Name of the IntEnum member (Python `self.status.name`). -/
def Status.name : Status → String
  | .COMPLETE => "COMPLETE"
  | .INCOMPLETE => "INCOMPLETE"
  | .UNKNOWN => "UNKNOWN"
  | .UNSATISFIABLE => "UNSATISFIABLE"
  | .UNBOUNDED => "UNBOUNDED"
  | .UNSATorUNBOUNDED => "UNSATorUNBOUNDED"
  | .ERROR => "ERROR"

/-- Marker `SolutionParser.SOLN_SEP`. -/
def SOLN_SEP : String := "----------"

/-- Marker `SolutionParser.SEARCH_COMPLETE`. -/
def SEARCH_COMPLETE : String := "=========="

/-- Marker `SolutionParser.UNSATISFIABLE`. -/
def UNSATISFIABLE_MARK : String := "=====UNSATISFIABLE====="

/-- Marker `SolutionParser.UNKNOWN`. -/
def UNKNOWN_MARK : String := "=====UNKNOWN====="

/-- Marker `SolutionParser.UNBOUNDED`. -/
def UNBOUNDED_MARK : String := "=====UNBOUNDED====="

/-- Marker `SolutionParser.UNSATorUNBOUNDED`. -/
def UNSATorUNBOUNDED_MARK : String := "=====UNSATorUNBOUNDED====="

/-- Marker `SolutionParser.ERROR`. -/
def ERROR_MARK : String := "=====ERROR====="

/-- Python `str.strip()` as used by `_split_solns` on each incoming
line: leading and trailing whitespace removed, interior untouched
(modelled over the common whitespace characters). -/
def pyStrip (s : String) : String :=
  ⟨((s.data.dropWhile Char.isWhitespace).reverse.dropWhile Char.isWhitespace).reverse⟩

/-- State held by the `_split_solns` generator: the accumulation
buffer `_buffer` (local to the generator) and `self.status` of the
enclosing `SolutionParser`. -/
structure SplitState where
  buffer : List String
  status : Status
deriving DecidableEq

/-- State at the start of a run: empty buffer,
`self.status = Status.INCOMPLETE` from `SolutionParser.__init__`. -/
def initSplitState : SplitState := ⟨[], Status.INCOMPLETE⟩

/-- One resumption of the `_split_solns` generator
(`output.py` lines 154-178): strip the line; on `----------` yield
the buffered lines joined by a newline and clear the buffer; on
`==========` set status COMPLETE and clear the buffer; on the other
five terminal markers set the corresponding status; on any other
non-empty stripped line append it to the buffer; ignore lines that
strip to empty. -/
def splitStep (st : SplitState) (rawLine : String) : SplitState × Option String :=
  let line := pyStrip rawLine
  if line = SOLN_SEP then
    ({ st with buffer := [] }, some (String.intercalate "\n" st.buffer))
  else if line = SEARCH_COMPLETE then
    ({ buffer := [], status := Status.COMPLETE }, none)
  else if line = UNKNOWN_MARK then
    ({ st with status := Status.UNKNOWN }, none)
  else if line = UNSATISFIABLE_MARK then
    ({ st with status := Status.UNSATISFIABLE }, none)
  else if line = UNBOUNDED_MARK then
    ({ st with status := Status.UNBOUNDED }, none)
  else if line = UNSATorUNBOUNDED_MARK then
    ({ st with status := Status.UNSATorUNBOUNDED }, none)
  else if line = ERROR_MARK then
    ({ st with status := Status.ERROR }, none)
  else if line ≠ "" then
    ({ st with buffer := st.buffer ++ [line] }, none)
  else
    (st, none)

/-- Feeding a whole line sequence to `_split_solns`, collecting the
emitted solution bodies in order. -/
def splitRun (st : SplitState) : List String → SplitState × List String
  | [] => (st, [])
  | l :: ls =>
    let step := splitStep st l
    let rest := splitRun step.1 ls
    (rest.1, step.2.toList ++ rest.2)

/-- Test for the seven recognized marker strings of `SolutionParser`
(applied to an already-stripped line). -/
def isMarker (l : String) : Bool :=
  l = SOLN_SEP || l = SEARCH_COMPLETE || l = UNKNOWN_MARK ||
  l = UNSATISFIABLE_MARK || l = UNBOUNDED_MARK ||
  l = UNSATorUNBOUNDED_MARK || l = ERROR_MARK

/-- Test for the six terminal (status-setting) marker strings, i.e.
every marker except the solution separator. -/
def isTerminalMarker (l : String) : Bool :=
  l = SEARCH_COMPLETE || l = UNKNOWN_MARK ||
  l = UNSATISFIABLE_MARK || l = UNBOUNDED_MARK ||
  l = UNSATorUNBOUNDED_MARK || l = ERROR_MARK

/-- Record stored on the stream: raw body text when
`output_mode != 'dict'`, or the structural value produced by the
external `dzn2dict` when `output_mode == 'dict'`. -/
inductive PRec (α : Type) where
  | raw (s : String)
  | parsed (v : α)
deriving DecidableEq

/-- Conversion applied by `_parse_lines` to each emitted body
(`output.py` lines 145-150): in 'dict' mode the body goes through the
external value parser (which may fail; its options `rebase_arrays`
and `types` are closed over in `vp`), otherwise the raw body string
is the record. -/
def parseBody {α : Type} (mode : String) (vp : String → Except String α)
    (body : String) : Except String (PRec α) :=
  if mode = "dict" then (vp body).map PRec.parsed else Except.ok (PRec.raw body)

/-- Combined `_parse_lines` / `_parse` loop: drive each line through
the splitter; whenever a body is emitted, convert it via `parseBody`
(an exception there aborts the whole run, as in the source where the
generator chain is driven synchronously). Returns the records in
emission order together with the final `self.status`. -/
def collectLoop {α : Type} (mode : String) (vp : String → Except String α)
    (st : SplitState) : List String → Except String (List (PRec α) × Status)
  | [] => Except.ok ([], st.status)
  | l :: ls =>
    let step := splitStep st l
    match step.2 with
    | none => collectLoop mode vp step.1 ls
    | some body =>
      match parseBody mode vp body with
      | Except.error e => Except.error e
      | Except.ok r =>
        match collectLoop mode vp step.1 ls with
        | Except.error e => Except.error e
        | Except.ok (rs, fin) => Except.ok (r :: rs, fin)

/-- Process handle collaborator: `proc.readlines()` and
`proc.stderr_data`. -/
structure Process where
  readlines : List String
  stderr_data : Option String
deriving DecidableEq

/-- The `Solutions` object. `queue` models the FIFO `Queue` (head is
the next element `get_nowait` returns); `solns` is `self._solns`
(`some` list iff `keep`); `n_solns`, `status`, `statistics` and
`stderr` are the fields of the same names (statistics is an opaque
solver-supplied payload, modelled as `Option String`). -/
structure Solutions (α : Type) where
  queue : List α
  keep : Bool
  solns : Option (List α)
  n_solns : Nat
  status : Status
  statistics : Option String
  stderr : Option String
deriving DecidableEq

/-- The `Solutions.__init__` state for a fresh queue:
`_solns = [] if keep else None`, zero count, `Status.INCOMPLETE`,
no statistics, no stderr. -/
def Solutions.mkFresh (α : Type) (keep : Bool) : Solutions α :=
  ⟨[], keep, if keep then some [] else none, 0, Status.INCOMPLETE, none, none⟩

/-- Effect on the object of consuming `_fetch()` to exhaustion
(`_fetch_all`): every queued record is dequeued, appended to
`_solns` when `keep` is set, and counted in `_n_solns`. -/
def Solutions.fetchAll {α : Type} (s : Solutions α) : Solutions α :=
  { s with
    queue := []
    solns := if s.keep then some (s.solns.getD [] ++ s.queue) else s.solns
    n_solns := s.n_solns + s.queue.length }

/-- The `__iter__` method, together with the records the returned
iterator yields when fully consumed: with `keep`, fetch everything
and iterate the stored list (restartable); without `keep`, the
one-shot `_fetch()` generator yields exactly the queued records while
draining them. -/
def Solutions.iterate {α : Type} (s : Solutions α) : Solutions α × List α :=
  if s.keep then
    (s.fetchAll, s.fetchAll.solns.getD [])
  else
    (s.fetchAll, s.queue)

/-- The `__len__` method: returns `self._n_solns` and performs no
mutation (the returned state is the receiver, unchanged). -/
def Solutions.lengthOp {α : Type} (s : Solutions α) : Nat × Solutions α :=
  (s.n_solns, s)

/-- The `__getitem__` method: a `RuntimeError` when `keep` is off;
otherwise fetch everything and index the stored list (an out-of-range
index is Python's `IndexError`). -/
def Solutions.getitem {α : Type} (s : Solutions α) (i : Nat) :
    Except String (Solutions α × α) :=
  if s.keep = false then
    Except.error "Cannot address directly if keep_solutions is False"
  else
    match (s.fetchAll.solns.getD []).get? i with
    | some r => Except.ok (s.fetchAll, r)
    | none => Except.error "IndexError"

/-- The `_pp_solns` helper, with the Python `repr` of a record a
parameter `rp`: for at most one stored record, Python's
`str(self._solns)` (bracketed, comma-separated reprs); otherwise one
record per line, indented, comma after all but the last. -/
def ppSolns {α : Type} (rp : α → String) (l : List α) : String :=
  if l.length ≤ 1 then
    "[" ++ String.intercalate ", " (l.map rp) ++ "]"
  else
    String.intercalate "\n"
      ("[" :: (List.range l.length).zipWith
          (fun i r => "    " ++ rp r ++ if i < l.length - 1 then "," else "") l
        ++ ["]"])

/-- The `__str__` method: when `keep` is set and `status < 2`, fetch
everything and render `_pp_solns`; otherwise render the status name. -/
def Solutions.strOp {α : Type} (rp : α → String) (s : Solutions α) :
    Solutions α × String :=
  if s.keep = true ∧ s.status.toNat < 2 then
    (s.fetchAll, ppSolns rp (s.fetchAll.solns.getD []))
  else
    (s, s.status.name)

/-- The `SolutionParser.parse` / `_collect` pair: a fresh `Solutions`
(with the default `keep=True`) is bound to a new queue; every record
produced by the parsing loop is put on the queue; then the final
status, the adapter's accumulated statistics `stats`, and the
process's stderr are copied onto the object. The adapter `adapt`
models `solver_parser.parse_out` applied to each raw line before the
splitter sees it. A value-parse failure inside the loop propagates
out of `parse` itself (the loop runs to completion before `parse`
returns). -/
def SolutionParser.parse {α : Type} (mode : String)
    (vp : String → Except String α) (adapt : String → String)
    (proc : Process) (stats : Option String) :
    Except String (Solutions (PRec α)) :=
  match collectLoop mode vp initSplitState (proc.readlines.map adapt) with
  | Except.error e => Except.error e
  | Except.ok (recs, fin) =>
    Except.ok
      { queue := recs
        keep := true
        solns := some []
        n_solns := 0
        status := fin
        statistics := stats
        stderr := proc.stderr_data }

/-- Solution bodies emitted by the splitter over a whole run (used to
state which bodies the value parser is offered). -/
def bodiesOf (adapt : String → String) (proc : Process) : List String :=
  (splitRun initSplitState (proc.readlines.map adapt)).2

/-! Helper lemmas about the splitter and the collection loop. -/

/-- Stripping the separator marker is the identity. -/
theorem pyStrip_sep : pyStrip SOLN_SEP = SOLN_SEP := by decide

/-- Joining no lines gives the empty string. -/
theorem intercalate_nil : String.intercalate "\n" ([] : List String) = "" := by decide

/-- On a line that strips to a non-empty, non-marker string, the
splitter appends the stripped line to the buffer and emits nothing. -/
theorem splitStep_plain (st : SplitState) (l : String)
    (h1 : pyStrip l ≠ "") (h2 : isMarker (pyStrip l) = false) :
    splitStep st l = ({ st with buffer := st.buffer ++ [pyStrip l] }, none) := by
  simp only [isMarker, Bool.or_eq_false_iff, decide_eq_false_iff_not] at h2
  obtain ⟨⟨⟨⟨⟨⟨n1, n2⟩, n3⟩, n4⟩, n5⟩, n6⟩, n7⟩ := h2
  simp [splitStep, n1, n2, n3, n4, n5, n6, n7, h1]

/-- Running the splitter over a concatenation: the second part starts
from the state where the first left off, and emissions concatenate. -/
theorem splitRun_append (st : SplitState) (ls1 ls2 : List String) :
    splitRun st (ls1 ++ ls2)
    = ((splitRun (splitRun st ls1).1 ls2).1,
       (splitRun st ls1).2 ++ (splitRun (splitRun st ls1).1 ls2).2) := by
  induction ls1 generalizing st with
  | nil => simp [splitRun]
  | cons l ls ih => simp [splitRun, ih]

/-- Running the splitter over lines that all strip to non-empty,
non-marker strings: the stripped lines are buffered in order and
nothing is emitted. -/
theorem splitRun_absorb (st : SplitState) (ls : List String)
    (h : ∀ l ∈ ls, pyStrip l ≠ "" ∧ isMarker (pyStrip l) = false) :
    splitRun st ls = ({ st with buffer := st.buffer ++ ls.map pyStrip }, []) := by
  induction ls generalizing st with
  | nil => simp [splitRun]
  | cons l ls ih =>
    have hl := h l (by simp)
    rw [splitRun, splitStep_plain st l hl.1 hl.2,
      ih _ (fun x hx => h x (by simp [hx]))]
    simp

/-- One splitter step never changes the status unless the stripped
line is a terminal marker. -/
theorem splitStep_status_frame (st : SplitState) (l : String)
    (h : isTerminalMarker (pyStrip l) = false) :
    (splitStep st l).1.status = st.status := by
  simp only [isTerminalMarker, Bool.or_eq_false_iff, decide_eq_false_iff_not] at h
  obtain ⟨⟨⟨⟨⟨n1, n2⟩, n3⟩, n4⟩, n5⟩, n6⟩ := h
  by_cases hs : pyStrip l = SOLN_SEP
  · simp [splitStep, hs]
  · simp only [splitStep, hs, n1, n2, n3, n4, n5, n6, if_false]
    split <;> rfl

/-- One splitter step never brings the status back to INCOMPLETE. -/
theorem splitStep_not_incomplete (st : SplitState) (l : String)
    (h : st.status ≠ Status.INCOMPLETE) :
    (splitStep st l).1.status ≠ Status.INCOMPLETE := by
  simp only [splitStep]
  split_ifs <;> simp_all

/-- A whole run never brings the status back to INCOMPLETE. -/
theorem splitRun_not_incomplete (st : SplitState) (ls : List String)
    (h : st.status ≠ Status.INCOMPLETE) :
    (splitRun st ls).1.status ≠ Status.INCOMPLETE := by
  induction ls generalizing st with
  | nil => simpa [splitRun]
  | cons l ls ih => exact ih _ (splitStep_not_incomplete st l h)

/-- In raw-text mode the collection loop succeeds and the records are
exactly the emitted bodies, tagged raw, with the splitter's final
status. -/
theorem collectLoop_raw {α : Type} (mode : String)
    (vp : String → Except String α) (hm : mode ≠ "dict") (st : SplitState)
    (ls : List String) :
    collectLoop mode vp st ls
    = Except.ok ((splitRun st ls).2.map PRec.raw, (splitRun st ls).1.status) := by
  induction ls generalizing st with
  | nil => simp [collectLoop, splitRun]
  | cons l ls ih =>
    simp only [collectLoop, splitRun]
    cases hs : (splitStep st l).2 with
    | none => simp [ih]
    | some body => simp [ih, parseBody, hm]

/-- When the collection loop fails, the error is the conversion error
of one of the emitted bodies (nothing is swallowed or retagged). -/
theorem collectLoop_error {α : Type} (mode : String)
    (vp : String → Except String α) (st : SplitState) (ls : List String)
    (e : String) (h : collectLoop mode vp st ls = Except.error e) :
    ∃ b ∈ (splitRun st ls).2, parseBody mode vp b = Except.error e := by
  induction ls generalizing st with
  | nil => simp [collectLoop] at h
  | cons l ls ih =>
    simp only [splitRun]
    cases hs : (splitStep st l).2 with
    | none =>
      simp only [collectLoop, hs] at h
      obtain ⟨b, hb, hpb⟩ := ih _ h
      exact ⟨b, by simp [hb], hpb⟩
    | some body =>
      simp only [collectLoop, hs] at h
      cases hp : parseBody mode vp body with
      | error e2 =>
        simp only [hp] at h
        cases h
        exact ⟨body, by simp, hp⟩
      | ok r =>
        simp only [hp] at h
        cases hc : collectLoop mode vp (splitStep st l).1 ls with
        | error e2 =>
          simp only [hc] at h
          cases h
          obtain ⟨b, hb, hpb⟩ := ih _ hc
          exact ⟨b, by simp [hb], hpb⟩
        | ok res =>
          simp only [hc] at h
          cases h

/-- When the collection loop succeeds, every emitted body converted
successfully. -/
theorem collectLoop_ok_all {α : Type} (mode : String)
    (vp : String → Except String α) (st : SplitState) (ls : List String)
    (res : List (PRec α) × Status)
    (h : collectLoop mode vp st ls = Except.ok res) :
    ∀ b ∈ (splitRun st ls).2, ∃ r, parseBody mode vp b = Except.ok r := by
  induction ls generalizing st res with
  | nil => simp [splitRun]
  | cons l ls ih =>
    simp only [splitRun]
    cases hs : (splitStep st l).2 with
    | none =>
      simp only [collectLoop, hs] at h
      intro b hb
      simp at hb
      exact ih _ _ h b hb
    | some body =>
      simp only [collectLoop, hs] at h
      cases hp : parseBody mode vp body with
      | error e2 => simp only [hp] at h; cases h
      | ok r =>
        simp only [hp] at h
        cases hc : collectLoop mode vp (splitStep st l).1 ls with
        | error e2 => simp only [hc] at h; cases h
        | ok res2 =>
          intro b hb
          simp at hb
          rcases hb with hb | hb
          · exact ⟨r, hb ▸ hp⟩
          · exact ih _ _ hc b hb

/-- Draining is idempotent: fetching again after a full fetch changes
nothing. -/
theorem fetchAll_idem {α : Type} (s : Solutions α) :
    s.fetchAll.fetchAll = s.fetchAll := by
  cases hk : s.keep <;> simp [Solutions.fetchAll, hk]

/-- The numeric comparison `status < 2` used by the source is exactly
membership in the pair of statuses under which solutions may exist. -/
theorem toNat_lt_two_iff (st : Status) :
    st.toNat < 2 ↔ (st = Status.COMPLETE ∨ st = Status.INCOMPLETE) := by
  cases st <;> simp [Status.toNat]

/-! Claim theorems. -/

/-- C1: for the input line sequence
`["x = 1;", "----------", "x = 2;", "----------", "=========="]` in
raw-text output mode (output_mode not 'dict'), `SolutionParser.parse`
returns a stream containing exactly the two records `"x = 1;"` and
`"x = 2;"` in that order, with status COMPLETE. -/
theorem claim_C1 {α : Type} (vp : String → Except String α) (mode : String)
    (hm : mode ≠ "dict") :
    SolutionParser.parse mode vp id
      ⟨["x = 1;", "----------", "x = 2;", "----------", "=========="], none⟩ none
    = Except.ok
        { queue := [PRec.raw "x = 1;", PRec.raw "x = 2;"]
          keep := true
          solns := some []
          n_solns := 0
          status := Status.COMPLETE
          statistics := none
          stderr := none } := by
  simp only [SolutionParser.parse, collectLoop_raw mode vp hm]
  rfl

/-- Witness for C1 at the concrete output mode "item". -/
theorem claim_C1_wit :
    SolutionParser.parse "item" (fun s => Except.ok s) id
      ⟨["x = 1;", "----------", "x = 2;", "----------", "=========="], none⟩ none
    = Except.ok
        { queue := [PRec.raw "x = 1;", PRec.raw "x = 2;"]
          keep := true
          solns := some []
          n_solns := 0
          status := Status.COMPLETE
          statistics := none
          stderr := none } :=
  claim_C1 (fun s => Except.ok s) "item" (by decide)

/-- C2 counterexample: the line `" x "` is non-empty and is not a
marker, yet after it and a separator the splitter emits the stripped
body `"x"`, not the original line `" x "` — the claim's "joined in
their original form" fails for lines carrying surrounding
whitespace. -/
theorem claim_C2_cex :
    (" x " ≠ "" ∧ isMarker " x " = false)
    ∧ (splitRun initSplitState [" x ", SOLN_SEP]).2 = ["x"]
    ∧ (splitRun initSplitState [" x ", SOLN_SEP]).2
      ≠ [String.intercalate "\n" [" x "]] := by decide

/-- C2 (amended): for every input sequence of lines each of which
strips to a non-empty, non-marker string, followed by one
solution-separator line, the splitter emits exactly one body, equal
to the stripped lines joined by the newline character in their
original order. -/
theorem claim_C2 (ls : List String)
    (h : ∀ l ∈ ls, pyStrip l ≠ "" ∧ isMarker (pyStrip l) = false) :
    (splitRun initSplitState (ls ++ [SOLN_SEP])).2
    = [String.intercalate "\n" (ls.map pyStrip)] := by
  rw [splitRun_append, splitRun_absorb _ _ h]
  simp [splitRun, splitStep, pyStrip_sep, initSplitState]

/-- Witness for C2 at a concrete two-line sequence. -/
theorem claim_C2_wit :
    (splitRun initSplitState (["x = 1;", "y = 2;"] ++ [SOLN_SEP])).2
    = [String.intercalate "\n" (["x = 1;", "y = 2;"].map pyStrip)] :=
  claim_C2 ["x = 1;", "y = 2;"] (by decide)

/-- C3 counterexample: after the terminal marker `=====UNKNOWN=====`
the status is UNKNOWN (a first mutation away from INCOMPLETE), yet a
later `=====ERROR=====` line mutates it again, to ERROR — the status
is not mutated at most once and later lines do change it. -/
theorem claim_C3_cex :
    (splitRun initSplitState [UNKNOWN_MARK]).1.status = Status.UNKNOWN
    ∧ Status.UNKNOWN ≠ Status.INCOMPLETE
    ∧ (splitRun initSplitState [UNKNOWN_MARK, ERROR_MARK]).1.status = Status.ERROR
    ∧ (splitRun initSplitState [UNKNOWN_MARK, ERROR_MARK]).1.status
      ≠ (splitRun initSplitState [UNKNOWN_MARK]).1.status := by decide

/-- C3 (amended): the run status starts as INCOMPLETE; only lines
that strip to a terminal marker mutate it (last writer wins, so a
later terminal marker may overwrite it); and it is monotone in that
once it has left INCOMPLETE no later line ever brings it back to
INCOMPLETE. -/
theorem claim_C3 :
    initSplitState.status = Status.INCOMPLETE
    ∧ (∀ st l, isTerminalMarker (pyStrip l) = false →
        (splitStep st l).1.status = st.status)
    ∧ (∀ st ls1 ls2, (splitRun st ls1).1.status ≠ Status.INCOMPLETE →
        (splitRun st (ls1 ++ ls2)).1.status ≠ Status.INCOMPLETE) := by
  refine ⟨rfl, splitStep_status_frame, fun st ls1 ls2 h => ?_⟩
  rw [splitRun_append]
  exact splitRun_not_incomplete _ ls2 h

/-- Witness for C3 at concrete states and lines. -/
theorem claim_C3_wit :
    initSplitState.status = Status.INCOMPLETE
    ∧ (splitStep ⟨[], Status.ERROR⟩ "x = 1;").1.status = Status.ERROR
    ∧ (splitRun initSplitState ([ERROR_MARK] ++ ["x = 1;", SOLN_SEP])).1.status
      ≠ Status.INCOMPLETE := by
  refine ⟨claim_C3.1, ?_, ?_⟩
  · exact claim_C3.2.1 ⟨[], Status.ERROR⟩ "x = 1;" (by decide)
  · exact claim_C3.2.2 initSplitState [ERROR_MARK] ["x = 1;", SOLN_SEP] (by decide)

/-- C4 counterexample: the line `" x = 1; "` is non-empty and not a
marker, yet the splitter buffers the stripped string `"x = 1;"`, not
the line verbatim with its surrounding whitespace. -/
theorem claim_C4_cex :
    (" x = 1; " ≠ "" ∧ isMarker " x = 1; " = false)
    ∧ (splitStep initSplitState " x = 1; ").1.buffer = ["x = 1;"]
    ∧ (splitStep initSplitState " x = 1; ").1.buffer ≠ [" x = 1; "] := by decide

/-- C4 (amended): for every line that strips to a non-empty,
non-marker string, the splitter appends the stripped line (leading
and trailing whitespace removed, interior characters unchanged) to
the accumulation buffer and emits nothing. -/
theorem claim_C4 (st : SplitState) (l : String)
    (h1 : pyStrip l ≠ "") (h2 : isMarker (pyStrip l) = false) :
    splitStep st l = ({ st with buffer := st.buffer ++ [pyStrip l] }, none) :=
  splitStep_plain st l h1 h2

/-- Witness for C4 at a concrete state and line. -/
theorem claim_C4_wit :
    splitStep ⟨["a"], Status.INCOMPLETE⟩ "x = 1;"
    = (⟨["a", "x = 1;"], Status.INCOMPLETE⟩, none) :=
  claim_C4 ⟨["a"], Status.INCOMPLETE⟩ "x = 1;" (by decide) (by decide)

/-- C10: a solution-separator line arriving while the buffer is empty
still emits a body — the empty string; in raw-text mode that empty
body is enqueued on the stream and counted once drained; and in
'dict' mode the empty body is passed to the external value parser. -/
theorem claim_C10 {α : Type} (vp : String → Except String α) (mode : String)
    (hm : mode ≠ "dict") (st : SplitState) (hb : st.buffer = []) :
    splitStep st SOLN_SEP = ({ st with buffer := [] }, some "")
    ∧ (SolutionParser.parse mode vp id ⟨[SOLN_SEP], none⟩ none).map
        (fun s => (s.queue, s.fetchAll.n_solns))
      = Except.ok ([PRec.raw ""], 1)
    ∧ collectLoop "dict" vp initSplitState [SOLN_SEP]
      = ((vp "").map fun v => ([PRec.parsed v], Status.INCOMPLETE)) := by
  refine ⟨?_, ?_, ?_⟩
  · have hone : splitStep st SOLN_SEP
        = ({ st with buffer := [] }, some (String.intercalate "\n" st.buffer)) := by
      simp [splitStep, pyStrip_sep]
    rw [hone, hb, intercalate_nil]
  · simp only [SolutionParser.parse, collectLoop_raw mode vp hm]
    rfl
  · cases hv : vp "" with
    | error e =>
      simp only [collectLoop, splitStep, parseBody]
      simp [pyStrip_sep, intercalate_nil, initSplitState, hv, Except.map]
    | ok v =>
      simp only [collectLoop, splitStep, parseBody]
      simp [pyStrip_sep, intercalate_nil, initSplitState, hv, Except.map]

/-- Mapping a conversion over an Except value neither creates nor
masks an error. -/
theorem map_parsed_error {α : Type} (x : Except String α) (e : String) :
    x.map PRec.parsed = Except.error e ↔ x = Except.error e := by
  cases x <;> simp [Except.map]

/-- Discriminator for Except results. -/
def exceptIsOk {ε α : Type} : Except ε α → Bool
  | Except.ok _ => true
  | Except.error _ => false

/-- Modelled from the spec: the external dzn value parser (`dzn2dict`,
whose source is not in this repository slice), here instantiated as a
parser that rejects every body, tagging its parse error with the
offending raw body text. -/
def vpTag (s : String) : Except String String :=
  Except.error ("dzn parse error in: " ++ s)

/-- C5 counterexample: with a failing value parser in 'dict' mode,
`parse` does not return a Stream at all — the collection loop is
driven to completion inside `parse`, so the parse error propagates
out of the `parse` call itself, not at the consumer's point of
iteration. -/
theorem claim_C5_cex :
    SolutionParser.parse "dict" vpTag id ⟨["x = 1;", SOLN_SEP], none⟩ none
      = Except.error ("dzn parse error in: " ++ "x = 1;")
    ∧ exceptIsOk
        (SolutionParser.parse "dict" vpTag id ⟨["x = 1;", SOLN_SEP], none⟩ none)
      = false := ⟨rfl, rfl⟩

/-- C5 (amended): a value-parse failure in 'dict' mode is not
swallowed, but it surfaces from the `parse` call itself rather than
at the consumer's iteration: whenever `parse` fails, the error is
exactly the value parser's error on one of the emitted bodies
(tagged by the spec-modelled parser with the offending raw text),
and whenever some emitted body is rejected by the value parser,
`parse` returns no Stream. -/
theorem claim_C5 {α : Type} (vp : String → Except String α) (proc : Process)
    (stats : Option String) :
    (∀ e, SolutionParser.parse "dict" vp id proc stats = Except.error e →
      ∃ b ∈ bodiesOf id proc, vp b = Except.error e)
    ∧ ((∃ b ∈ bodiesOf id proc, ∃ e, vp b = Except.error e) →
      ∀ s, SolutionParser.parse "dict" vp id proc stats ≠ Except.ok s) := by
  constructor
  · intro e h
    cases hcl : collectLoop "dict" vp initSplitState (proc.readlines.map id) with
    | error e2 =>
      have he : e2 = e := by
        simp only [SolutionParser.parse, hcl] at h
        cases h
        rfl
      subst he
      obtain ⟨b, hb, hpb⟩ := collectLoop_error _ _ _ _ _ hcl
      refine ⟨b, by simpa [bodiesOf] using hb, ?_⟩
      rw [parseBody, if_pos rfl] at hpb
      exact (map_parsed_error _ _).mp hpb
    | ok res =>
      obtain ⟨recs, fin⟩ := res
      simp only [SolutionParser.parse, hcl] at h
      cases h
  · rintro ⟨b, hb, e, hve⟩ s hs
    cases hcl : collectLoop "dict" vp initSplitState (proc.readlines.map id) with
    | error e2 =>
      simp only [SolutionParser.parse, hcl] at hs
      cases hs
    | ok res =>
      obtain ⟨r, hr⟩ := collectLoop_ok_all _ _ _ _ _ hcl b (by simpa [bodiesOf] using hb)
      rw [parseBody, if_pos rfl, hve] at hr
      simp [Except.map] at hr

/-- Witness for C5 at a concrete failing value parser and process. -/
theorem claim_C5_wit :
    (∃ b ∈ bodiesOf id ⟨["x = 2;", SOLN_SEP], none⟩,
      vpTag b = Except.error ("dzn parse error in: " ++ "x = 2;"))
    ∧ SolutionParser.parse "dict" vpTag id ⟨["x = 2;", SOLN_SEP], none⟩ none
      ≠ Except.ok (Solutions.mkFresh (PRec String) true) := by
  constructor
  · exact (claim_C5 vpTag ⟨["x = 2;", SOLN_SEP], none⟩ none).1 _ rfl
  · exact (claim_C5 vpTag ⟨["x = 2;", SOLN_SEP], none⟩ none).2
      ⟨"x = 2;", by decide, "dzn parse error in: " ++ "x = 2;", rfl⟩ _

/-- C6: indexed access on a non-retained stream always fails with the
usage error and never returns a record, for any index; on a retained
stream it forces a full drain and returns the i-th stored record. -/
theorem claim_C6 {α : Type} (s : Solutions α) (i : Nat) :
    (s.keep = false →
      s.getitem i = Except.error "Cannot address directly if keep_solutions is False")
    ∧ (s.keep = true →
      ∀ h : i < (s.fetchAll.solns.getD []).length,
        s.getitem i = Except.ok (s.fetchAll, (s.fetchAll.solns.getD []).get ⟨i, h⟩)) := by
  constructor
  · intro hk
    simp [Solutions.getitem, hk]
  · intro hk h
    simp only [Solutions.getitem, hk]
    rw [if_neg (by simp), List.get?_eq_get h]

/-- Witness for C6 at concrete retained and non-retained streams. -/
theorem claim_C6_wit :
    Solutions.getitem (⟨["a"], false, none, 0, Status.INCOMPLETE, none, none⟩ : Solutions String) 0
      = Except.error "Cannot address directly if keep_solutions is False"
    ∧ Solutions.getitem (⟨["a"], true, some [], 0, Status.INCOMPLETE, none, none⟩ : Solutions String) 0
      = Except.ok
          ((⟨["a"], true, some [], 0, Status.INCOMPLETE, none, none⟩ : Solutions String).fetchAll,
            "a") := by
  constructor
  · exact (claim_C6 (⟨["a"], false, none, 0, Status.INCOMPLETE, none, none⟩ : Solutions String) 0).1 rfl
  · exact (claim_C6 (⟨["a"], true, some [], 0, Status.INCOMPLETE, none, none⟩ : Solutions String) 0).2
      rfl (by decide)

/-- C7: on a retained stream whose channel is already fully drained,
iterating twice yields the identical record sequence both times, and
the second drain is a no-op on the stream state. -/
theorem claim_C7 {α : Type} (s : Solutions α) (hk : s.keep = true)
    (_hd : s.queue = []) :
    s.iterate.2 = s.iterate.1.iterate.2
    ∧ s.iterate.1.iterate.1 = s.iterate.1 := by
  have hk1 : s.fetchAll.keep = true := hk
  simp only [Solutions.iterate, hk, hk1, if_true]
  rw [fetchAll_idem]
  exact ⟨rfl, rfl⟩

/-- Witness for C7 at a concrete drained retained stream. -/
theorem claim_C7_wit :
    (⟨[], true, some ["a"], 1, Status.COMPLETE, none, none⟩ : Solutions String).iterate.2
      = (⟨[], true, some ["a"], 1, Status.COMPLETE, none, none⟩ : Solutions String).iterate.1.iterate.2
    ∧ (⟨[], true, some ["a"], 1, Status.COMPLETE, none, none⟩ : Solutions String).iterate.1.iterate.1
      = (⟨[], true, some ["a"], 1, Status.COMPLETE, none, none⟩ : Solutions String).iterate.1 :=
  claim_C7 (⟨[], true, some ["a"], 1, Status.COMPLETE, none, none⟩ : Solutions String) rfl rfl

/-- C8: the length operation returns the running count of records
fetched so far and leaves every field of the stream unchanged — the
queue, the stored record list, the count, the status, the statistics
and the error text. -/
theorem claim_C8 {α : Type} (s : Solutions α) :
    s.lengthOp.1 = s.n_solns
    ∧ s.lengthOp.2 = s
    ∧ s.lengthOp.2.queue = s.queue
    ∧ s.lengthOp.2.solns = s.solns
    ∧ s.lengthOp.2.n_solns = s.n_solns
    ∧ s.lengthOp.2.status = s.status
    ∧ s.lengthOp.2.statistics = s.statistics
    ∧ s.lengthOp.2.stderr = s.stderr :=
  ⟨rfl, rfl, rfl, rfl, rfl, rfl, rfl, rfl⟩

/-- C9: the text rendering shows the ordered list of retained records
exactly when retention is on and the status is COMPLETE or INCOMPLETE
(after forcing a full drain), and otherwise shows the status name
alone. -/
theorem claim_C9 {α : Type} (rp : α → String) (s : Solutions α) :
    (s.keep = true ∧ (s.status = Status.COMPLETE ∨ s.status = Status.INCOMPLETE) →
      s.strOp rp = (s.fetchAll, ppSolns rp (s.fetchAll.solns.getD [])))
    ∧ (¬(s.keep = true ∧ (s.status = Status.COMPLETE ∨ s.status = Status.INCOMPLETE)) →
      s.strOp rp = (s, s.status.name)) := by
  constructor
  · rintro ⟨h1, h2⟩
    simp only [Solutions.strOp]
    rw [if_pos ⟨h1, (toNat_lt_two_iff s.status).mpr h2⟩]
  · intro h
    simp only [Solutions.strOp]
    rw [if_neg (fun hc => h ⟨hc.1, (toNat_lt_two_iff s.status).mp hc.2⟩)]

/-- Witness for C9 at a retained COMPLETE stream and a non-retained
UNSATISFIABLE stream. -/
theorem claim_C9_wit :
    Solutions.strOp (fun r => r) (⟨["a"], true, some [], 0, Status.COMPLETE, none, none⟩ : Solutions String)
      = ((⟨["a"], true, some [], 0, Status.COMPLETE, none, none⟩ : Solutions String).fetchAll,
        ppSolns (fun r => r)
          ((⟨["a"], true, some [], 0, Status.COMPLETE, none, none⟩ : Solutions String).fetchAll.solns.getD []))
    ∧ Solutions.strOp (fun r => r) (⟨["a"], false, none, 0, Status.UNSATISFIABLE, none, none⟩ : Solutions String)
      = (⟨["a"], false, none, 0, Status.UNSATISFIABLE, none, none⟩, "UNSATISFIABLE") := by
  constructor
  · exact (claim_C9 (fun r => r) (⟨["a"], true, some [], 0, Status.COMPLETE, none, none⟩ : Solutions String)).1
      ⟨rfl, Or.inl rfl⟩
  · exact (claim_C9 (fun r => r) (⟨["a"], false, none, 0, Status.UNSATISFIABLE, none, none⟩ : Solutions String)).2
      (by simp)

/-- Witness for C10 at the concrete output mode "item", a concrete
value parser and the initial splitter state. -/
theorem claim_C10_wit :
    splitStep initSplitState SOLN_SEP = ({ initSplitState with buffer := [] }, some "")
    ∧ (SolutionParser.parse "item" (fun s => Except.ok s) id
        ⟨[SOLN_SEP], none⟩ none).map (fun s => (s.queue, s.fetchAll.n_solns))
      = Except.ok ([PRec.raw ""], 1)
    ∧ collectLoop "dict" (fun s => Except.ok s) initSplitState [SOLN_SEP]
      = ((Except.ok "" : Except String String).map
          fun v => ([PRec.parsed v], Status.INCOMPLETE)) :=
  claim_C10 (fun s => Except.ok s) "item" (by decide) initSplitState rfl
